import Mathlib

/-!
Verification development for the `iota` Caddy plugin (`src/iota/plugin.go`),
an HTTP middleware that intercepts the IOTA `attachToTangle` API command,
performs the proof-of-work locally under a process-wide mutex, and forwards
every other request to the upstream node.

The embedding below follows `Interceptor.ServeHTTP` (plugin.go lines
122-223).  External collaborators (the JSON codec, the transaction decoder
`transaction.AsTransactionObject`, the proof-of-work primitive `pow.DoPoW`,
the wall clock, and the response writer) are parameters of the model,
gathered in `Env`.  Logger-only computations (`isValueBundle`, `inputValue`,
the per-transaction value log lines) do not influence the observable result
and are not modelled, with one exception: the read of `transactions[0].Bundle`
at line 195 is modelled explicitly (field `bundleLog` of the result) because
its in-bounds safety is a property of interest.
-/

namespace Iota

/-- Trytes are opaque fixed-alphabet strings (`trinary.Trytes`). -/
abbrev Trytes := String

/-- Bytes of an HTTP body (`[]byte`), modelled as a list of naturals. -/
abbrev Bytes := List Nat

/-- The decoded command envelope, Go struct `AttachToTangleReq`
(plugin.go lines 100-106). -/
structure AttachToTangleReq where
  command : String
  trunkTxHash : Trytes
  branchTxHash : Trytes
  mwm : Int
  trytes : List Trytes
  deriving Repr, DecidableEq

/-- The success response, Go struct `AttachToTangleRes`
(plugin.go lines 108-111): the post-PoW trytes and a duration in
integer milliseconds. -/
structure AttachToTangleRes where
  trytes : List Trytes
  duration : Int
  deriving Repr, DecidableEq

/-- The fields of `transaction.Transaction` that `ServeHTTP` reads
(address and value feed only log lines; `bundle` is read at line 195). -/
structure Transaction where
  address : Trytes
  value : Int
  bundle : Trytes
  deriving Repr, DecidableEq

/-- Process-wide configuration set at startup: `maxMWM` and
`maxTxInBundle` (plugin.go lines 55-56).  Both are Go `int`s produced by
`strconv.Atoi`, hence modelled as integers. -/
structure Config where
  maxMWM : Int
  maxTxInBundle : Int
  deriving Repr, DecidableEq

/-- The target command name (plugin.go line 118). -/
def attachToTangleCommand : String := "attachToTangle"

/-- An inbound HTTP request as `ServeHTTP` observes it: the method, the
body (`none` models `r.Body == nil`), and whether reading the body
stream fails (`ioutil.ReadAll` returning an error). -/
structure Request where
  method : String
  body : Option Bytes
  bodyReadErr : Bool
  deriving Repr, DecidableEq

/-- The error values the handler can return (plugin.go lines 25-30). -/
inductive ErrKind where
  | missingBody
  | invalidMWM
  | bundleLimit
  | buildingTx
  | pow
  | buildingRes
  deriving Repr, DecidableEq

/-- Observable synchronisation and timing events of one request, in
program order: acquiring/releasing the package-level mutex `mu`
(plugin.go lines 120, 155-156), reading the start timestamp
(line 171), and invoking the proof-of-work primitive (line 203). -/
inductive Event where
  | lock
  | unlock
  | timerStart
  | pow
  deriving Repr, DecidableEq

/-- Terminal outcome of one request.  `forwarded b` means the request was
handed to the next handler with `b` as the body the upstream will be able
to read at that point; `errored s e` is the `(status, error)` pair the
handler returns; `ok res` is a 200 response carrying `res`. -/
inductive Outcome where
  | forwarded : Option Bytes → Outcome
  | errored : Nat → ErrKind → Outcome
  | ok : AttachToTangleRes → Outcome
  deriving Repr, DecidableEq

/-- External collaborators of `ServeHTTP`, as used at each call site.

* `decodeEnvelope` — `json.Unmarshal(contents, command)` (line 137);
  `none` models a decode error.
* `asTx` — `transaction.AsTransactionObject` (line 178).
* `doPoW` — `pow.DoPoW(trunk, branch, trytes, uint64(mwm), powFn)`
  (line 203); `none` models a PoW error.
* `marshalRes` — `json.Marshal(res)` (line 212).
* `writeOk` — whether `w.Write(resBytes)` succeeds (line 219).
* `clock` — successive values returned by `time.Now().UnixNano()`;
  call `n` is the `n`-th read inside the intercepted path (0: line 171,
  1: line 202, 2: line 208, 3: line 210).
* `tValidatorDone` — the wall-clock instant at which the MWM check
  (line 150) completed, i.e. just before `mu.Lock()`.  The Go code never
  reads the clock at that point; the field exists only so that the
  specification's notion of duration can be stated and compared. -/
structure Env where
  decodeEnvelope : Bytes → Option AttachToTangleReq
  asTx : Trytes → Option Transaction
  doPoW : Trytes → Trytes → List Trytes → Nat → Option (List Trytes)
  marshalRes : AttachToTangleRes → Option Bytes
  writeOk : Bool
  clock : Nat → Int
  tValidatorDone : Int

/-- Result of one `ServeHTTP` run: the outcome, the event trace, and the
value logged from `transactions[0].Bundle` at line 195 (`none` when that
line is never reached; the access is modelled with `List.get?` so that
its in-bounds safety is a provable statement rather than an assumption). -/
structure ServeResult where
  outcome : Outcome
  events : List Event
  bundleLog : Option Trytes
  deriving Repr, DecidableEq

/-- Go's conversion `uint64(x)` of a signed integer: two's-complement
wrap-around modulo `2^64`. -/
def goUint64 (x : Int) : Nat := (Int.emod x (2 ^ 64)).toNat

/-- The decode loop of plugin.go lines 177-193: it walks the batch from
the last element down to the first, aborting on the first
`AsTransactionObject` error; on success every index `i` holds the decode
of `txTrytes[i]`.  Processing the tail (higher indices) before the head
mirrors the descending loop order. -/
def decodeBatch (asTx : Trytes → Option Transaction) : List Trytes → Option (List Transaction)
  | [] => some []
  | t :: ts =>
    match decodeBatch asTx ts with
    | none => none
    | some rest =>
      match asTx t with
      | none => none
      | some tx => some (tx :: rest)

/-- The validation/compute suffix of `Interceptor.ServeHTTP`, plugin.go
lines 150-222: everything after the classifier has decoded the envelope
and matched the target command.  Each branch mirrors one return path:

* MWM out of `[0, maxMWM]` → 400 `ErrInvalidMWM`, before any lock
  activity (lines 150-152);
* `mu.Lock()` / deferred `mu.Unlock()` (lines 155-156);
* empty batch → forward; the body was re-attached at line 143
  (lines 162-164);
* batch over `maxTxInBundle` → 400 (lines 167-170);
* `start := time.Now().UnixNano()` (line 171);
* decode failure → 400 `ErrBuildingTx` (lines 177-193);
* `transactions[0].Bundle` logged (line 195);
* PoW failure → 400 `ErrExecutingProofOfWork` (lines 203-206);
* response built with `Duration = (now - start) / 1000000` (line 210),
  Go `int64` division truncating toward zero (`Int.tdiv`);
* marshal or write failure → 500 `ErrBuildingRes`, else 200 (212-222). -/
def computeStage (cfg : Config) (env : Env) (contents : Bytes)
    (command : AttachToTangleReq) : ServeResult :=
  if command.mwm > cfg.maxMWM ∨ command.mwm < 0 then
    ⟨.errored 400 .invalidMWM, [], none⟩
  else
    let txTrytes := command.trytes
    if txTrytes.length = 0 then
      ⟨.forwarded (some contents), [.lock, .unlock], none⟩
    else if (txTrytes.length : Int) > cfg.maxTxInBundle then
      ⟨.errored 400 .bundleLimit, [.lock, .unlock], none⟩
    else
      match decodeBatch env.asTx txTrytes with
      | none => ⟨.errored 400 .buildingTx, [.lock, .timerStart, .unlock], none⟩
      | some transactions =>
        let bundleLog := (transactions.get? 0).map Transaction.bundle
        match env.doPoW command.trunkTxHash command.branchTxHash txTrytes
            (goUint64 command.mwm) with
        | none =>
          ⟨.errored 400 .pow, [.lock, .timerStart, .pow, .unlock], bundleLog⟩
        | some powedBundle =>
          let res : AttachToTangleRes :=
            ⟨powedBundle, Int.tdiv (env.clock 3 - env.clock 0) 1000000⟩
          match env.marshalRes res with
          | none =>
            ⟨.errored 500 .buildingRes, [.lock, .timerStart, .pow, .unlock], bundleLog⟩
          | some _ =>
            if env.writeOk then
              ⟨.ok res, [.lock, .timerStart, .pow, .unlock], bundleLog⟩
            else
              ⟨.errored 500 .buildingRes, [.lock, .timerStart, .pow, .unlock], bundleLog⟩

/-- Shallow embedding of `Interceptor.ServeHTTP` (plugin.go lines
122-223): the classifier prefix, handing over to `computeStage` when the
request is intercepted.  Branches:

* non-POST → forward untouched (lines 123-125);
* nil body or read error → 400 `ErrMissingBody` (lines 127-134);
* envelope fails to decode → forward; note the Go code forwards *before*
  re-attaching the body at line 143, so the upstream sees the already
  drained stream, modelled as `some []` (lines 137-140);
* command mismatch → forward with the body re-attached at line 143
  (lines 146-148);
* otherwise the request is intercepted (lines 150-222). -/
def serveHTTP (cfg : Config) (env : Env) (req : Request) : ServeResult :=
  if req.method ≠ "POST" then
    ⟨.forwarded req.body, [], none⟩
  else
    match req.body with
    | none => ⟨.errored 400 .missingBody, [], none⟩
    | some contents =>
      if req.bodyReadErr then ⟨.errored 400 .missingBody, [], none⟩
      else
        match env.decodeEnvelope contents with
        | none => ⟨.forwarded (some []), [], none⟩
        | some command =>
          if command.command ≠ attachToTangleCommand then
            ⟨.forwarded (some contents), [], none⟩
          else
            computeStage cfg env contents command

/-- Mutex discipline of a single request's event trace, for the single
non-reentrant mutex `mu`: scanning left to right, `lock` only when not
held, `unlock` only when held, the PoW invocation and the start-timer
read only while held, and the lock not held when the request returns.
Captures "acquire before invoking the primitive, release on every exit
path". -/
def lockDisciplinedFrom : Bool → List Event → Bool
  | held, [] => !held
  | held, .lock :: rest => !held && lockDisciplinedFrom true rest
  | held, .unlock :: rest => held && lockDisciplinedFrom false rest
  | held, .pow :: rest => held && lockDisciplinedFrom held rest
  | held, .timerStart :: rest => held && lockDisciplinedFrom held rest

/-- A trace is lock-disciplined when its scan from the released state
succeeds. -/
def lockDisciplined (tr : List Event) : Bool := lockDisciplinedFrom false tr

/-- The duration the specification describes for claim C3, *as the spec
words it*: measured from the moment the request began processing
validator output (`tValidatorDone`, before lock acquisition) to
completion (the last clock read), in integer milliseconds.  This
definition follows the claim's words, not the source; it exists to be
compared with the duration the source computes. -/
def specDurationFromValidator (env : Env) : Int :=
  Int.tdiv (env.clock 3 - env.tValidatorDone) 1000000

/-! ### Concrete fixtures

Small concrete configurations, requests and environments used to
instantiate the theorems below (witnesses and counterexamples). -/

/-- The configuration of spec Scenario A: max MWM 14, max 20 txs. -/
def cfgW : Config := ⟨14, 20⟩

/-- A well-formed envelope: target command, MWM 14, one transaction. -/
def cmdW : AttachToTangleReq := ⟨"attachToTangle", "TRUNK", "BRANCH", 14, ["TXA"]⟩

/-- An envelope whose MWM (15) exceeds `cfgW.maxMWM` (14). -/
def cmdBadMWM : AttachToTangleReq := ⟨"attachToTangle", "TRUNK", "BRANCH", 15, ["TXA"]⟩

/-- An envelope violating both ceilings of `cfgW` at once: MWM 15 > 14
and 21 transactions > 20. -/
def cmdBoth : AttachToTangleReq :=
  ⟨"attachToTangle", "TRUNK", "BRANCH", 15, List.replicate 21 "TXA"⟩

/-- An envelope within the MWM bound but with 21 transactions. -/
def cmdBigBatch : AttachToTangleReq :=
  ⟨"attachToTangle", "TRUNK", "BRANCH", 14, List.replicate 21 "TXA"⟩

/-- An envelope within the MWM bound and with an empty batch. -/
def cmdEmpty : AttachToTangleReq := ⟨"attachToTangle", "TRUNK", "BRANCH", 14, []⟩

/-- A POST request whose body is the single byte 0x7B (an opening brace
that is not a complete JSON document). -/
def reqW : Request := ⟨"POST", some [123], false⟩

/-- A base environment: the envelope decodes to `cmdW`, every
transaction decodes, PoW succeeds returning its input trytes, the
response marshals and writes, and the clock ticks one millisecond per
read starting at 5 ms (so that 5 ms elapse between `tValidatorDone`
and the first read, e.g. waiting for the lock). -/
def envBase : Env where
  decodeEnvelope := fun _ => some cmdW
  asTx := fun _ => some ⟨"ADDR", 0, "BNDL"⟩
  doPoW := fun _ _ txs _ => some txs
  marshalRes := fun _ => some []
  writeOk := true
  clock := fun n => 5000000 + (n : Int) * 1000000
  tValidatorDone := 0

/-- Environment whose envelope decode fails (invalid JSON body). -/
def envBadJSON : Env := { envBase with decodeEnvelope := fun _ => none }

/-- Environment decoding to the over-MWM envelope. -/
def envBadMWM : Env := { envBase with decodeEnvelope := fun _ => some cmdBadMWM }

/-- Environment decoding to the doubly-violating envelope. -/
def envBoth : Env := { envBase with decodeEnvelope := fun _ => some cmdBoth }

/-- Environment decoding to the oversized-batch envelope. -/
def envBigBatch : Env := { envBase with decodeEnvelope := fun _ => some cmdBigBatch }

/-- Environment decoding to the empty-batch envelope. -/
def envEmpty : Env := { envBase with decodeEnvelope := fun _ => some cmdEmpty }

/-- Environment in which every raw transaction fails to decode. -/
def envBadTx : Env := { envBase with asTx := fun _ => none }

/-- Environment in which the proof-of-work primitive fails. -/
def envPowFail : Env := { envBase with doPoW := fun _ _ _ _ => none }

/-! ### Helper lemmas -/

/-- On an intercepted request (POST, readable body, envelope decodes,
command matches), `serveHTTP` is the validation/compute suffix. -/
theorem serveHTTP_intercepted (cfg : Config) (env : Env) (req : Request)
    (contents : Bytes) (command : AttachToTangleReq)
    (hm : req.method = "POST") (hb : req.body = some contents)
    (hr : req.bodyReadErr = false)
    (hd : env.decodeEnvelope contents = some command)
    (hc : command.command = attachToTangleCommand) :
    serveHTTP cfg env req = computeStage cfg env contents command := by
  unfold serveHTTP
  simp [hm, hb, hr, hd, hc]

/-- The batch decode fails exactly when some raw transaction fails to
decode. -/
theorem decodeBatch_eq_none_iff (f : Trytes → Option Transaction)
    (l : List Trytes) :
    decodeBatch f l = none ↔ ∃ t ∈ l, f t = none := by
  induction l with
  | nil => simp [decodeBatch]
  | cons t ts ih =>
    simp only [decodeBatch, List.mem_cons, exists_eq_or_imp]
    cases h : decodeBatch f ts with
    | none =>
      have hex : ∃ x ∈ ts, f x = none := ih.mp h
      simp [hex]
    | some rest =>
      rw [h] at ih
      cases hf : f t with
      | none => simp [hf]
      | some tx =>
        have hnex : ¬ ∃ x ∈ ts, f x = none := fun hx => by simpa using ih.mpr hx
        simp [hf, hnex]

/-- A successful batch decode yields one transaction per raw
transaction. -/
theorem decodeBatch_length (f : Trytes → Option Transaction)
    (l : List Trytes) (ds : List Transaction)
    (h : decodeBatch f l = some ds) : ds.length = l.length := by
  induction l generalizing ds with
  | nil => simp [decodeBatch] at h; simp [← h]
  | cons t ts ih =>
    simp only [decodeBatch] at h
    cases hts : decodeBatch f ts with
    | none => rw [hts] at h; exact absurd h (by simp)
    | some rest =>
      rw [hts] at h
      cases hf : f t with
      | none => rw [hf] at h; exact absurd h (by simp)
      | some tx =>
        rw [hf] at h
        obtain rfl : tx :: rest = ds := by simpa using h
        simp [ih rest hts]

/-! ### Claim theorems -/

/-- C1: the claim states that a POST whose body fails to decode as the
command envelope is forwarded with the original body bytes re-attached,
so the upstream receives a byte-identical body.  The code instead
forwards at plugin.go line 139 *before* re-attaching the body at
line 143, so the upstream sees the already drained stream.  Evaluated
here at a concrete failing input: a POST whose body is the single byte
0x7B and fails envelope decoding is forwarded with an empty readable
body, not the original byte. -/
theorem c1_invalid_json_forwarded_with_drained_body :
    (serveHTTP cfgW envBadJSON reqW).outcome = .forwarded (some [])
      ∧ reqW.body = some [123]
      ∧ (Outcome.forwarded (some []) ≠ .forwarded (some [123])) := by
  decide

/-- C2: every run of the handler is lock-disciplined: the proof-of-work
primitive is invoked only while the process-wide mutex `mu` is held, the
mutex is acquired only when free, and it is released on every exit path
(the trace always ends with the lock free).  Under the mutual-exclusion
semantics of `sync.Mutex`, this serializes all PoW invocations across
concurrent requests. -/
theorem c2_pow_lock_discipline (cfg : Config) (env : Env) (req : Request) :
    lockDisciplined (serveHTTP cfg env req).events = true := by
  unfold serveHTTP computeStage
  repeat' split
  all_goals dsimp only
  all_goals repeat' split
  all_goals rfl

/-- C4: an intercepted request is rejected with the invalid-MWM client
error exactly when its difficulty is negative or strictly exceeds the
configured maximum (plugin.go line 150), and on such a rejection the
proof-of-work primitive is never invoked; every difficulty in
`[0, maxMWM]` passes this check. -/
theorem c4_mwm_check_iff (cfg : Config) (env : Env) (req : Request)
    (contents : Bytes) (command : AttachToTangleReq)
    (hm : req.method = "POST") (hb : req.body = some contents)
    (hr : req.bodyReadErr = false)
    (hd : env.decodeEnvelope contents = some command)
    (hc : command.command = attachToTangleCommand) :
    ((serveHTTP cfg env req).outcome = .errored 400 .invalidMWM
        ↔ (command.mwm > cfg.maxMWM ∨ command.mwm < 0))
      ∧ ((command.mwm > cfg.maxMWM ∨ command.mwm < 0) →
          Event.pow ∉ (serveHTTP cfg env req).events) := by
  rw [serveHTTP_intercepted cfg env req contents command hm hb hr hd hc]
  unfold computeStage
  by_cases hbad : command.mwm > cfg.maxMWM ∨ command.mwm < 0
  · simp [hbad]
  · rw [if_neg hbad]
    refine ⟨⟨fun h => ?_, fun h => absurd h hbad⟩, fun h => absurd h hbad⟩
    revert h
    dsimp only
    repeat' split
    all_goals simp

/-- C4 witness: the MWM-15 envelope against maximum 14 is rejected with
the invalid-MWM error and no PoW invocation. -/
theorem c4_witness :
    ((serveHTTP cfgW envBadMWM reqW).outcome = .errored 400 .invalidMWM
        ↔ (cmdBadMWM.mwm > cfgW.maxMWM ∨ cmdBadMWM.mwm < 0))
      ∧ ((cmdBadMWM.mwm > cfgW.maxMWM ∨ cmdBadMWM.mwm < 0) →
          Event.pow ∉ (serveHTTP cfgW envBadMWM reqW).events) :=
  c4_mwm_check_iff cfgW envBadMWM reqW [123] cmdBadMWM rfl rfl rfl rfl rfl

/-- C10: an intercepted request violating both ceilings at once (MWM out
of bounds and batch over the maximum) is rejected with the invalid-MWM
error, not the batch-limit error, and its event trace is empty — the
difficulty check at plugin.go line 150 runs before `mu.Lock()` at line
155, while the batch-size check at line 167 runs only after it. -/
theorem c10_mwm_error_wins_both_violations (cfg : Config) (env : Env)
    (req : Request) (contents : Bytes) (command : AttachToTangleReq)
    (hm : req.method = "POST") (hb : req.body = some contents)
    (hr : req.bodyReadErr = false)
    (hd : env.decodeEnvelope contents = some command)
    (hc : command.command = attachToTangleCommand)
    (hmwm : command.mwm > cfg.maxMWM ∨ command.mwm < 0)
    (_hlen : (command.trytes.length : Int) > cfg.maxTxInBundle) :
    (serveHTTP cfg env req).outcome = .errored 400 .invalidMWM
      ∧ (serveHTTP cfg env req).events = [] := by
  rw [serveHTTP_intercepted cfg env req contents command hm hb hr hd hc]
  unfold computeStage
  rw [if_pos hmwm]
  exact ⟨rfl, rfl⟩

/-- C10 witness: the envelope with MWM 15 and 21 transactions against
limits (14, 20) is rejected with the invalid-MWM error and no lock
activity. -/
theorem c10_witness :
    (serveHTTP cfgW envBoth reqW).outcome = .errored 400 .invalidMWM
      ∧ (serveHTTP cfgW envBoth reqW).events = [] :=
  c10_mwm_error_wins_both_violations cfgW envBoth reqW [123] cmdBoth
    rfl rfl rfl rfl rfl (by decide) (by decide)

/-- C5: an intercepted request whose batch length strictly exceeds the
configured (non-negative) maximum batch size is rejected with a
client-error status — the batch-limit error (plugin.go lines 167-170),
or the invalid-MWM error when the difficulty check already failed — and
the proof-of-work primitive is never invoked. -/
theorem c5_batch_over_limit_rejected (cfg : Config) (env : Env)
    (req : Request) (contents : Bytes) (command : AttachToTangleReq)
    (hm : req.method = "POST") (hb : req.body = some contents)
    (hr : req.bodyReadErr = false)
    (hd : env.decodeEnvelope contents = some command)
    (hc : command.command = attachToTangleCommand)
    (hmax : 0 ≤ cfg.maxTxInBundle)
    (hlen : (command.trytes.length : Int) > cfg.maxTxInBundle) :
    (∃ e, (serveHTTP cfg env req).outcome = .errored 400 e)
      ∧ Event.pow ∉ (serveHTTP cfg env req).events := by
  rw [serveHTTP_intercepted cfg env req contents command hm hb hr hd hc]
  unfold computeStage
  by_cases hbad : command.mwm > cfg.maxMWM ∨ command.mwm < 0
  · rw [if_pos hbad]
    exact ⟨⟨.invalidMWM, rfl⟩, by simp⟩
  · rw [if_neg hbad]
    dsimp only
    have hne : ¬ command.trytes.length = 0 := by
      intro h0
      rw [h0] at hlen
      push_cast at hlen
      omega
    rw [if_neg hne, if_pos hlen]
    exact ⟨⟨.bundleLimit, rfl⟩, by simp⟩

/-- C5 witness: the 21-transaction envelope against maximum batch size
20 is rejected with a client error and no PoW invocation. -/
theorem c5_witness :
    (∃ e, (serveHTTP cfgW envBigBatch reqW).outcome = .errored 400 e)
      ∧ Event.pow ∉ (serveHTTP cfgW envBigBatch reqW).events :=
  c5_batch_over_limit_rejected cfgW envBigBatch reqW [123] cmdBigBatch
    rfl rfl rfl rfl rfl (by decide) (by decide)

/-- C6: an intercepted request that passes the difficulty check and
whose batch is empty is forwarded to the upstream node (with the body
re-attached at plugin.go line 143) rather than rejected, and the
proof-of-work primitive is never invoked, so the compute stage never
runs with an empty batch (lines 162-164).  The difficulty check
precedes this guard, so its hypothesis is needed: batch emptiness
itself never causes a rejection. -/
theorem c6_empty_batch_passthrough (cfg : Config) (env : Env)
    (req : Request) (contents : Bytes) (command : AttachToTangleReq)
    (hm : req.method = "POST") (hb : req.body = some contents)
    (hr : req.bodyReadErr = false)
    (hd : env.decodeEnvelope contents = some command)
    (hc : command.command = attachToTangleCommand)
    (hmwm : ¬(command.mwm > cfg.maxMWM ∨ command.mwm < 0))
    (hempty : command.trytes = []) :
    (serveHTTP cfg env req).outcome = .forwarded (some contents)
      ∧ Event.pow ∉ (serveHTTP cfg env req).events := by
  rw [serveHTTP_intercepted cfg env req contents command hm hb hr hd hc]
  unfold computeStage
  rw [if_neg hmwm]
  dsimp only
  rw [if_pos (by simp [hempty])]
  exact ⟨rfl, by simp⟩

/-- C6 witness: the empty-batch envelope with MWM 14 is forwarded with
the original body byte and no PoW invocation. -/
theorem c6_witness :
    (serveHTTP cfgW envEmpty reqW).outcome = .forwarded (some [123])
      ∧ Event.pow ∉ (serveHTTP cfgW envEmpty reqW).events :=
  c6_empty_batch_passthrough cfgW envEmpty reqW [123] cmdEmpty
    rfl rfl rfl rfl rfl (by decide) rfl

/-- C7: an intercepted request that reaches the decode stage (difficulty
and batch-size checks passed) in which at least one raw transaction
fails to decode is rejected wholesale with the malformed-transaction
client error, and the proof-of-work primitive is never invoked — the
decode is all-or-nothing (plugin.go lines 177-181). -/
theorem c7_malformed_tx_all_or_nothing (cfg : Config) (env : Env)
    (req : Request) (contents : Bytes) (command : AttachToTangleReq)
    (hm : req.method = "POST") (hb : req.body = some contents)
    (hr : req.bodyReadErr = false)
    (hd : env.decodeEnvelope contents = some command)
    (hc : command.command = attachToTangleCommand)
    (hmwm : ¬(command.mwm > cfg.maxMWM ∨ command.mwm < 0))
    (hlen : (command.trytes.length : Int) ≤ cfg.maxTxInBundle)
    (hbad : ∃ t ∈ command.trytes, env.asTx t = none) :
    (serveHTTP cfg env req).outcome = .errored 400 .buildingTx
      ∧ Event.pow ∉ (serveHTTP cfg env req).events := by
  rw [serveHTTP_intercepted cfg env req contents command hm hb hr hd hc]
  unfold computeStage
  rw [if_neg hmwm]
  dsimp only
  have hne : ¬ command.trytes.length = 0 := by
    obtain ⟨t, ht, _⟩ := hbad
    intro h0
    rw [List.length_eq_zero.mp h0] at ht
    exact absurd ht (List.not_mem_nil t)
  rw [if_neg hne, if_neg (not_lt.mpr hlen),
    (decodeBatch_eq_none_iff env.asTx command.trytes).mpr hbad]
  exact ⟨rfl, by simp⟩

/-- C7 witness: a one-transaction batch whose transaction fails to
decode is rejected with the malformed-transaction error and no PoW
invocation. -/
theorem c7_witness :
    (serveHTTP cfgW envBadTx reqW).outcome = .errored 400 .buildingTx
      ∧ Event.pow ∉ (serveHTTP cfgW envBadTx reqW).events :=
  c7_malformed_tx_all_or_nothing cfgW envBadTx reqW [123] cmdW
    rfl rfl rfl rfl rfl (by decide) (by decide) ⟨"TXA", by decide, rfl⟩

/-- C8: when the proof-of-work primitive reports a failure, the request
fails with a client-error status (400, the PoW error, plugin.go lines
203-206), and the trace shows the mutex released after the PoW
invocation — the deferred unlock runs on this exit path too. -/
theorem c8_pow_failure_client_error_lock_released (cfg : Config)
    (env : Env) (req : Request) (contents : Bytes)
    (command : AttachToTangleReq) (ds : List Transaction)
    (hm : req.method = "POST") (hb : req.body = some contents)
    (hr : req.bodyReadErr = false)
    (hd : env.decodeEnvelope contents = some command)
    (hc : command.command = attachToTangleCommand)
    (hmwm : ¬(command.mwm > cfg.maxMWM ∨ command.mwm < 0))
    (hne : ¬ command.trytes.length = 0)
    (hlen : (command.trytes.length : Int) ≤ cfg.maxTxInBundle)
    (hdec : decodeBatch env.asTx command.trytes = some ds)
    (hpow : env.doPoW command.trunkTxHash command.branchTxHash
      command.trytes (goUint64 command.mwm) = none) :
    (serveHTTP cfg env req).outcome = .errored 400 .pow
      ∧ (serveHTTP cfg env req).events
          = [.lock, .timerStart, .pow, .unlock] := by
  rw [serveHTTP_intercepted cfg env req contents command hm hb hr hd hc]
  unfold computeStage
  rw [if_neg hmwm]
  dsimp only
  rw [if_neg hne, if_neg (not_lt.mpr hlen), hdec]
  dsimp only
  rw [hpow]
  exact ⟨rfl, rfl⟩

/-- C8 witness: with a failing PoW primitive, the one-transaction
request fails with the PoW client error and the full
lock/timer/pow/unlock trace. -/
theorem c8_witness :
    (serveHTTP cfgW envPowFail reqW).outcome = .errored 400 .pow
      ∧ (serveHTTP cfgW envPowFail reqW).events
          = [.lock, .timerStart, .pow, .unlock] :=
  c8_pow_failure_client_error_lock_released cfgW envPowFail reqW [123]
    cmdW [⟨"ADDR", 0, "BNDL"⟩] rfl rfl rfl rfl rfl (by decide)
    (by decide) (by decide) (by decide) rfl

/-- C9: on the compute path the decoded-transactions array has exactly
one entry per raw transaction and is non-empty (the empty-batch
passthrough guard at plugin.go lines 162-164 ran first), so the read of
`transactions[0].Bundle` at line 195 — modelled with `List.get?` in
`bundleLog` — is an in-bounds access that yields a value. -/
theorem c9_bundle_read_in_bounds (cfg : Config) (env : Env)
    (req : Request) (contents : Bytes) (command : AttachToTangleReq)
    (ds : List Transaction)
    (hm : req.method = "POST") (hb : req.body = some contents)
    (hr : req.bodyReadErr = false)
    (hd : env.decodeEnvelope contents = some command)
    (hc : command.command = attachToTangleCommand)
    (hmwm : ¬(command.mwm > cfg.maxMWM ∨ command.mwm < 0))
    (hne : ¬ command.trytes.length = 0)
    (hlen : (command.trytes.length : Int) ≤ cfg.maxTxInBundle)
    (hdec : decodeBatch env.asTx command.trytes = some ds) :
    ds.length = command.trytes.length
      ∧ 0 < ds.length
      ∧ (serveHTTP cfg env req).bundleLog
          = (ds.get? 0).map Transaction.bundle
      ∧ ((serveHTTP cfg env req).bundleLog).isSome = true := by
  have hdl := decodeBatch_length env.asTx command.trytes ds hdec
  have hpos : 0 < ds.length := by omega
  have hlog : (serveHTTP cfg env req).bundleLog
      = (ds.get? 0).map Transaction.bundle := by
    rw [serveHTTP_intercepted cfg env req contents command hm hb hr hd hc]
    unfold computeStage
    rw [if_neg hmwm]
    dsimp only
    rw [if_neg hne, if_neg (not_lt.mpr hlen), hdec]
    dsimp only
    repeat' split
    all_goals rfl
  refine ⟨hdl, hpos, hlog, ?_⟩
  rw [hlog, List.get?_eq_get hpos]
  rfl

/-- C9 witness: on the successful one-transaction run the decoded array
has length 1 and the logged bundle hash is present. -/
theorem c9_witness :
    ([(⟨"ADDR", 0, "BNDL"⟩ : Transaction)]).length = cmdW.trytes.length
      ∧ 0 < ([(⟨"ADDR", 0, "BNDL"⟩ : Transaction)]).length
      ∧ (serveHTTP cfgW envBase reqW).bundleLog
          = (([(⟨"ADDR", 0, "BNDL"⟩ : Transaction)]).get? 0).map Transaction.bundle
      ∧ ((serveHTTP cfgW envBase reqW).bundleLog).isSome = true :=
  c9_bundle_read_in_bounds cfgW envBase reqW [123] cmdW
    [⟨"ADDR", 0, "BNDL"⟩] rfl rfl rfl rfl rfl (by decide) (by decide)
    (by decide) (by decide)

/-- C3 (amended): on a successful run, the reported duration is the
difference between the clock read at plugin.go line 210 and the one at
line 171, divided by 1,000,000 with truncation — and the start read
happens strictly after lock acquisition (the trace is lock, timerStart,
pow, unlock), so time spent waiting for the `ComputeLock` is excluded
from the reported duration. -/
theorem c3_duration_measured_after_lock (cfg : Config) (env : Env)
    (req : Request) (contents : Bytes) (command : AttachToTangleReq)
    (ds : List Transaction) (powed : List Trytes) (bs : Bytes)
    (hm : req.method = "POST") (hb : req.body = some contents)
    (hr : req.bodyReadErr = false)
    (hd : env.decodeEnvelope contents = some command)
    (hc : command.command = attachToTangleCommand)
    (hmwm : ¬(command.mwm > cfg.maxMWM ∨ command.mwm < 0))
    (hne : ¬ command.trytes.length = 0)
    (hlen : (command.trytes.length : Int) ≤ cfg.maxTxInBundle)
    (hdec : decodeBatch env.asTx command.trytes = some ds)
    (hpow : env.doPoW command.trunkTxHash command.branchTxHash
      command.trytes (goUint64 command.mwm) = some powed)
    (hmar : env.marshalRes
      ⟨powed, Int.tdiv (env.clock 3 - env.clock 0) 1000000⟩ = some bs)
    (hw : env.writeOk = true) :
    (serveHTTP cfg env req).outcome
        = .ok ⟨powed, Int.tdiv (env.clock 3 - env.clock 0) 1000000⟩
      ∧ (serveHTTP cfg env req).events
          = [.lock, .timerStart, .pow, .unlock] := by
  rw [serveHTTP_intercepted cfg env req contents command hm hb hr hd hc]
  unfold computeStage
  rw [if_neg hmwm]
  dsimp only
  rw [if_neg hne, if_neg (not_lt.mpr hlen), hdec]
  dsimp only
  rw [hpow]
  dsimp only
  rw [hmar]
  dsimp only
  rw [hw]
  exact ⟨rfl, rfl⟩

/-- C3 witness: the successful one-transaction run reports duration
`(8000000 - 5000000) / 1000000 = 3` ms with the lock acquired before the
timer start. -/
theorem c3_witness :
    (serveHTTP cfgW envBase reqW).outcome
        = .ok ⟨["TXA"], Int.tdiv (envBase.clock 3 - envBase.clock 0) 1000000⟩
      ∧ (serveHTTP cfgW envBase reqW).events
          = [.lock, .timerStart, .pow, .unlock] :=
  c3_duration_measured_after_lock cfgW envBase reqW [123] cmdW
    [⟨"ADDR", 0, "BNDL"⟩] ["TXA"] [] rfl rfl rfl rfl rfl (by decide)
    (by decide) (by decide) (by decide) rfl rfl rfl

/-- C3 counterexample: the claim says the measured window includes time
spent waiting to acquire the `ComputeLock`.  In `envBase` the validator
finished at instant 0 (`tValidatorDone`), 5 ms pass before the first
clock read at line 171 (e.g. waiting for the lock), and the run
completes at instant 8 ms.  A duration measured from the moment the
request began processing validator output would be 8 ms
(`specDurationFromValidator`), but the code reports 3 ms: the waiting
time is excluded, refuting the claim. -/
theorem c3_lock_wait_excluded_cex :
    (serveHTTP cfgW envBase reqW).outcome = .ok ⟨["TXA"], 3⟩
      ∧ specDurationFromValidator envBase = 8
      ∧ (3 : Int) ≠ 8 := by
  decide

end Iota
